import Mathlib

/-!
Shallow embedding of the OpenRouter proxy (src/routes.py, src/utils.py).

Pure helper semantics of Python operations (dict `.get`, subscripting,
`in`, `int(...)`, truthiness, `str.partition`) are modelled explicitly so
that the translated functions follow the source line by line, including
which exceptions each `try`/`except` block can swallow.  The key manager
and the constants module are not part of `src/`; the definitions for them
are modelled from the spec and marked as such in their doc comments.

JSON numbers are modelled as integers: no claim in scope involves
fractional values, and floating point is outside the embedding.
-/

namespace ORProxy

/-- JSON values as produced by `json.loads` / `response.json()`.
Objects are association lists standing for Python dicts (keys unique). -/
inductive Json where
  | null
  | bool (b : Bool)
  | num (n : Int)
  | str (s : String)
  | arr (xs : List Json)
  | obj (fields : List (String × Json))

/-- Python truthiness of a JSON value. -/
def Json.truthy : Json → Bool
  | .null => false
  | .bool b => b
  | .num n => n != 0
  | .str s => s != ""
  | .arr xs => !xs.isEmpty
  | .obj fs => !fs.isEmpty

/-- `x == n` in Python for an int constant `n` (a non-number never equals it;
booleans would coerce but the constants in scope are never 0/1). -/
def Json.isNumVal : Json → Int → Bool
  | .num m, n => m == n
  | _, _ => false

/-- `x == s` in Python for a string constant `s`. -/
def Json.isStrVal : Json → String → Bool
  | .str t, s => t == s
  | _, _ => false

/-- `isinstance(x, dict)`. -/
def Json.isDict : Json → Bool
  | .obj _ => true
  | _ => false

/-- Python `x.get(k, d)`: `none` models the `AttributeError` raised when
`x` is not a dict. -/
def Json.pyGet : Json → String → Json → Option Json
  | .obj fs, k, d => some ((fs.lookup k).getD d)
  | _, _, _ => none

/-- Python `x[k]` with a string key: `none` models both the `KeyError` on a
missing key and the `TypeError` on a non-dict value. -/
def Json.pySub : Json → String → Option Json
  | .obj fs, k => fs.lookup k
  | _, _ => none

/-- Whether the character list `needle` occurs contiguously in `hay`. -/
def containsSeq (needle : List Char) : List Char → Bool
  | [] => needle.isEmpty
  | c :: t => needle.isPrefixOf (c :: t) || containsSeq needle t

/-- Python `needle in hay` for strings (substring test). -/
def strContains (hay needle : String) : Bool :=
  containsSeq needle.toList hay.toList

/-- ASCII lowercasing, modelling Python `str.lower` on the ASCII strings
the code compares (header names, schemes, error texts); defined over the
character list so that it evaluates inside the kernel. -/
def strLower (s : String) : String :=
  String.mk (s.data.map Char.toLower)

/-- Python `s.startswith(pre)`. -/
def strStarts (s pre : String) : Bool :=
  pre.data.isPrefixOf s.data

/-- Left-to-right non-overlapping removal of every occurrence of the
pattern `p :: pat`, with fuel for structural recursion (one character is
consumed per step, so the input length suffices). -/
def removeAllSub (p : Char) (pat : List Char) : Nat → List Char → List Char
  | 0, l => l
  | _ + 1, [] => []
  | fuel + 1, c :: t =>
    if (p :: pat).isPrefixOf (c :: t) then removeAllSub p pat fuel (t.drop pat.length)
    else c :: removeAllSub p pat fuel t

/-- Python `s.replace(pat, "")`: every occurrence of `pat` deleted. -/
def replaceRemove (s pat : String) : String :=
  match pat.data with
  | [] => s
  | p :: ps => String.mk (removeAllSub p ps s.data.length s.data)

/-- Python `k in x` for a string `k`: key membership for dicts, element
equality for lists, substring for strings; `none` models the `TypeError`
raised on other values. -/
def pyInOp (k : String) : Json → Option Bool
  | .obj fs => some (fs.any (fun p => p.1 == k))
  | .arr xs => some (xs.any (fun j => j.isStrVal k))
  | .str s => some (strContains s k)
  | _ => none

/-- Decimal digit run to a number; `none` if empty or any non-digit. -/
def parseDigits : List Char → Option Nat
  | [] => none
  | cs => cs.foldl
      (fun acc c =>
        match acc with
        | some a => if c.isDigit then some (a * 10 + (c.toNat - 48)) else none
        | none => none)
      (some 0)

/-- Python `int(s)` on a string: surrounding whitespace stripped, optional
sign, decimal digits (digit-group underscores are not modelled; no claim
involves them). -/
def parseIntStr (s : String) : Option Int :=
  let cs := s.toList.dropWhile (fun c => c.isWhitespace)
  let cs := (cs.reverse.dropWhile (fun c => c.isWhitespace)).reverse
  match cs with
  | [] => none
  | c :: rest =>
    if c == '-' then (parseDigits rest).map (fun n => -(n : Int))
    else if c == '+' then (parseDigits rest).map (fun n => (n : Int))
    else (parseDigits (c :: rest)).map (fun n => (n : Int))

/-- Python `int(x)` on a JSON value; `none` models `TypeError`/`ValueError`. -/
def Json.pyInt : Json → Option Int
  | .num n => some n
  | .bool b => some (if b then 1 else 0)
  | .str s => parseIntStr s
  | _ => none

/-- Case-insensitive header lookup (httpx/starlette header semantics). -/
def headerGet (hs : List (String × String)) (name : String) : Option String :=
  (hs.find? (fun p => strLower p.1 == strLower name)).map (fun p => p.2)

/-- Exact-key lookup, modelling Python `dict` access on a headers dict. -/
def headerGetExact (hs : List (String × String)) (name : String) : Option String :=
  (hs.find? (fun p => p.1 == name)).map (fun p => p.2)

/-- Modelled from the spec: the known rate-limit status code from the
constants module, which is not under `src/`. Its exact value is immaterial
to every claim in scope. -/
def RATE_LIMIT_ERROR_CODE : Int := 429

/-- Modelled from the spec: the exact known rate-limit message string from
the constants module, which is not under `src/`. Its exact value is
immaterial to every claim in scope. -/
def RATE_LIMIT_ERROR_MESSAGE : String := "Rate limit exceeded"

/-- A buffered upstream HTTP response as seen by `proxy_with_httpx`:
`body` is the outcome of `response.json()` (`none` = body does not parse),
`rawBody` the bytes returned by `aread`, `lines` the line iteration used
by the SSE relay. -/
structure HttpResponse where
  status : Nat
  headers : List (String × String)
  body : Option Json
  rawBody : String
  lines : List String

/-- A structured SDK error as seen by `check_rate_limit_openai`:
`code` is `err.code`, `body` is `err.body` (Python `None` as `Json.null`),
`message` is `err.message`. -/
structure APIError where
  code : Json
  body : Json
  message : String

/-- utils.check_rate_limit_openai: returns (has_rate_limit_error,
reset_time_ms). The nested reset extraction sets both values only when the
whole subscript chain and `int(...)` succeed; any exception there is
swallowed. A `None` reset falls back to the message-substring test. -/
def check_rate_limit_openai (err : APIError) : Bool × Option Int :=
  let firstPass : Bool × Option Int :=
    if err.code.isNumVal RATE_LIMIT_ERROR_CODE && err.body.isDict then
      match (do
        let m ← err.body.pySub "metadata"
        let h ← m.pySub "headers"
        let v ← h.pySub "X-RateLimit-Reset"
        v.pyInt) with
      | some n => (true, some n)
      | none => (false, none)
    else (false, none)
  match firstPass with
  | (d, some n) => (d, some n)
  | (d, none) =>
    if strContains err.message RATE_LIMIT_ERROR_MESSAGE then (true, none)
    else (d, none)

/-- The reset-extraction step of utils.check_rate_limit_error, run only
after detection: membership test on the `.get`-with-default chain, then the
direct subscript chain and `int(...)`. Every failure mode (TypeError in the
membership test, KeyError/TypeError in the subscripts, ValueError/TypeError
in `int`) is swallowed by an enclosing `except`, leaving the reset `None`
and the detection flag set. -/
def rawResetExtract (data errObj : Json) : Option Int :=
  match (do
    let m ← errObj.pyGet "metadata" (Json.obj [])
    let h ← m.pyGet "headers" (Json.obj [])
    pyInOp "X-RateLimit-Reset" h) with
  | some true =>
    (do
      let e ← data.pySub "error"
      let m ← e.pySub "metadata"
      let h ← m.pySub "headers"
      let v ← h.pySub "X-RateLimit-Reset"
      v.pyInt)
  | _ => none

/-- utils.check_rate_limit_error: content type must contain
`application/json`, the body must parse, and the top-level error object
must carry the known status code and the exact known message; only then is
a reset time extracted. Any exception inside the outer `try` leaves the
values computed so far. -/
def check_rate_limit_error (resp : HttpResponse) : Bool × Option Int :=
  let ct := (headerGet resp.headers "content-type").getD ""
  if strContains ct "application/json" then
    match resp.body with
    | none => (false, none)
    | some data =>
      match data.pyGet "error" (Json.obj []) with
      | none => (false, none)
      | some errObj =>
        match errObj.pyGet "status" (Json.str ""), errObj.pyGet "message" (Json.str "") with
        | some st, some msg =>
          if st.isNumVal RATE_LIMIT_ERROR_CODE && msg.isStrVal RATE_LIMIT_ERROR_MESSAGE then
            (true, rawResetExtract data errObj)
          else (false, none)
        | _, _ => (false, none)
  else (false, none)

/-- Python `s.partition(" ")` restricted to the parts the code uses:
the text before the first space and, when a space exists, the text after
it (`none` when the separator is absent, where Python returns `("", "")`
for the last two components). -/
def splitAtSpace : List Char → List Char × Option (List Char)
  | [] => ([], none)
  | c :: t =>
    if c == ' ' then ([], some t)
    else
      let r := splitAtSpace t
      (c :: r.1, r.2)

/-- String-level wrapper of `splitAtSpace`. -/
def pyPartition (s : String) : String × Option String :=
  let r := splitAtSpace s.data
  (String.mk r.1, r.2.map String.mk)

/-- utils.verify_access_key: 401 on a missing (or empty, hence falsy)
header, 401 on a scheme other than case-insensitive "bearer", 401 on a
token different from the configured access key, `true` otherwise. -/
def verify_access_key (authorization : Option String) (access_key : String) :
    Except (Nat × String) Bool :=
  match authorization with
  | none => .error (401, "Authorization header missing")
  | some a =>
    if a.data.isEmpty then .error (401, "Authorization header missing")
    else
      let parts := pyPartition a
      let scheme := parts.1
      let token := parts.2.getD ""
      if strLower scheme != "bearer" then
        .error (401, "Invalid authentication scheme")
      else if token != access_key then
        .error (401, "Invalid access key")
      else .ok true

/-- Modelled from the spec: one pool key of the key manager
(key_manager.py is not under `src/`): secret value plus an optional
cooling deadline (`none` = Available). -/
structure PoolKey where
  value : String
  coolingUntil : Option Int

/-- Modelled from the spec: the KeyPool — ordered key sequence, rotation
cursor, default cooldown (same time unit as `coolingUntil`; the scaling
from the configured seconds is configuration plumbing outside the model). -/
structure KeyManager where
  keys : List PoolKey
  cursor : Nat
  cooldown : Int

/-- Modelled from the spec: lazy reactivation — every key whose
`coolingUntil` has passed becomes Available again. -/
def reactivateAll (now : Int) (km : KeyManager) : KeyManager :=
  { km with keys := km.keys.map (fun k =>
      match k.coolingUntil with
      | some t => if t ≤ now then { k with coolingUntil := none } else k
      | none => k) }

/-- Index of the first Available key at or after `start` (round robin,
at most `fuel` probes). -/
def findAvailable (keys : List PoolKey) : Nat → Nat → Option Nat
  | _, 0 => none
  | start, n + 1 =>
    let i := start % keys.length
    match keys.get? i with
    | some k => if k.coolingUntil.isNone then some i else findAvailable keys (start + 1) n
    | none => none

/-- Modelled from the spec: `KeyPool.acquire` — reactivate lapsed keys,
select the next Available key from the cursor in round-robin order and
advance the cursor past it; `none` when no key is Available. -/
def get_next_key (km : KeyManager) (now : Int) : Option String × KeyManager :=
  let km1 := reactivateAll now km
  match findAvailable km1.keys km1.cursor km1.keys.length with
  | some i =>
    ((km1.keys.get? i).map (fun k => k.value),
     { km1 with cursor := (i + 1) % km1.keys.length })
  | none => (none, km1)

/-- Modelled from the spec: `KeyPool.disable` — mark the key with the given
value Cooling until the provided reset time, or `now` plus the default
cooldown when no reset was parsed. -/
def disable_key (km : KeyManager) (key : String) (reset : Option Int) (now : Int) :
    KeyManager :=
  { km with keys := km.keys.map (fun k =>
      if k.value == key then { k with coolingUntil := some (reset.getD (now + km.cooldown)) }
      else k) }

/-- One upstream chunk of a structured streaming call: its `choices` list
and the serialized form `json.dumps(chunk.model_dump())`. -/
structure Chunk where
  choices : List String
  dump : String

/-- routes.stream_response, as the byte frames it yields: one
`data: <json>` frame per chunk with a non-empty choices list; the terminal
`data: [DONE]` frame is yielded after the loop, so it is reached only when
the upstream iteration finishes without raising — the `except` clause that
handles a mid-stream failure yields nothing. -/
def stream_response : List Chunk → Option String → List String
  | [], none => ["data: [DONE]\n\n"]
  | [], some _ => []
  | c :: rest, f =>
    (if c.choices.isEmpty then [] else ["data: " ++ c.dump ++ "\n\n"]) ++
      stream_response rest f

/-- The pool effect of stream_response's `except` clause: on a mid-stream
failure whose text contains "rate limit" (case-insensitively) and with a
truthy api key, the key is disabled with no reset time. -/
def stream_disable (km : KeyManager) (failMsg : Option String) (apiKey : String)
    (now : Int) : KeyManager :=
  match failMsg with
  | some m =>
    if strContains (strLower m) "rate limit" && (apiKey != "") then
      disable_key km apiKey none now
    else km
  | none => km

/-- routes.proxy_with_httpx header construction: drop host/content-length/
connection always (comparing lowercased names); for non-public requests
additionally drop any authorization header and append the rotated key's
bearer header (a fresh exact-case "Authorization" dict entry). -/
def buildRawHeaders (inbound : List (String × String)) (is_public : Bool)
    (key : String) : List (String × String) :=
  if is_public then
    inbound.filter (fun p =>
      !(strLower p.1 == "host" || strLower p.1 == "content-length" ||
        strLower p.1 == "connection"))
  else
    (inbound.filter (fun p =>
      !(strLower p.1 == "host" || strLower p.1 == "content-length" ||
        strLower p.1 == "connection" || strLower p.1 == "authorization"))) ++
      [("Authorization", "Bearer " ++ key)]

/-- `current_key` of proxy_with_httpx: the exact-case "Authorization" dict
entry, with every occurrence of "Bearer " removed. -/
def currentKey (hs : List (String × String)) : Option String :=
  (headerGetExact hs "Authorization").map (fun v => replaceRemove v "Bearer ")

/-- Overwrite (or append) one exact-case header entry, modelling the dict
assignment on retry. -/
def setHeader (hs : List (String × String)) (name v : String) :
    List (String × String) :=
  if (hs.find? (fun p => p.1 == name)).isSome then
    hs.map (fun p => if p.1 == name then (p.1, v) else p)
  else hs ++ [(name, v)]

/-- The SSE line relay of proxy_with_httpx: a `data: [DONE]` line and any
other `data: `-marked line are both re-emitted as the line itself plus a
blank line (the two source branches produce identical bytes); any other
non-empty line is framed the same way; empty lines are dropped. -/
def relaySSELine (line : String) : List String :=
  if strStarts line "data: " then [line ++ "\n\n"]
  else if line != "" then [line ++ "\n\n"]
  else []

/-- All frames of the SSE relay. -/
def relaySSE (lines : List String) : List String :=
  lines.flatMap relaySSELine

/-- Python's rendering of an `Optional[str]` in an f-string: `None` for the
absent case (proxy_with_httpx never checks the acquired key for `None`). -/
def pyStr : Option String → String
  | some s => s
  | none => "None"

/-- What one upstream httpx call produces. -/
inductive UpstreamEvent where
  | resp (r : HttpResponse)
  | connectError
  | timeout

/-- The upstream as seen through httpx: per call index (0 = first attempt,
1 = retry) and sent headers, one event. -/
structure HttpxOracle where
  call : Nat → List (String × String) → UpstreamEvent

/-- The upstream as seen through the OpenAI SDK: `once` is a non-streaming
call (error = the stringified exception), `stream` a streaming call
(error = stringified exception raised before the stream opens; otherwise
the yielded chunks and an optional mid-stream failure text). -/
structure SdkOracle where
  once : String → Except String String
  stream : String → Except String (List Chunk × Option String)

/-- The response value finally handed to the caller. -/
inductive RespOut where
  | sdkJson (body : String)
  | sseStream (frames : List String)
  | buffered (status : Nat) (headers : List (String × String)) (body : String)
  | binaryStream (status : Nat) (headers : List (String × String))
  | jsonError (status : Nat) (detail : String)

/-- Outcome of handle_chat_completions: response or HTTPException,
resulting pool, the keys used for upstream SDK calls in order, and the
keys disabled by the handler (not counting mid-stream disables). -/
structure HandleOut where
  result : Except (Nat × String) RespOut
  km : KeyManager
  callsKeys : List String
  disabled : List String

/-- routes.handle_chat_completions. A missing parsed body raises
`AttributeError` on `request_body.copy()` before any upstream call; the
handler's `except` turns it into a 500 (its text holds no "rate limit").
On an upstream failure whose text contains "rate limit" (case-insensitive)
with a truthy key, the key is disabled with NO reset time, a replacement is
acquired and the handler re-invokes itself recursively; otherwise — and
when no replacement is available — a 500 carrying the failure text is
raised. `fuel` bounds the recursion (each cycle disables the key it used,
so pool size + 1 suffices whenever the cooldown is positive). Argument
construction (extra_body bucket, stream-flag stripping, the
referer/title header allow-list) carries no decision logic and lives
behind the oracle. -/
def handle_chat_completions (o : SdkOracle) (is_stream : Bool)
    (body? : Option Json) (apiKey : String) (now : Int) (km : KeyManager) :
    Nat → HandleOut
  | 0 =>
    ⟨.error (500, "Error processing chat completion: maximum recursion depth exceeded"),
     km, [], []⟩
  | fuel + 1 =>
    match body? with
    | none =>
      ⟨.error (500, "Error processing chat completion: NoneType object has no attribute copy"),
       km, [], []⟩
    | some _ =>
      let attempt : Except String (RespOut × KeyManager) :=
        if is_stream then
          match o.stream apiKey with
          | .ok (chunks, failMsg) =>
            .ok (.sseStream (stream_response chunks failMsg),
                 stream_disable km failMsg apiKey now)
          | .error m => .error m
        else
          match o.once apiKey with
          | .ok b => .ok (.sdkJson b, km)
          | .error m => .error m
      match attempt with
      | .ok (r, km') => ⟨.ok r, km', [apiKey], []⟩
      | .error msg =>
        if strContains (strLower msg) "rate limit" && (apiKey != "") then
          let km1 := disable_key km apiKey none now
          match get_next_key km1 now with
          | (some newKey, km2) =>
            let r := handle_chat_completions o is_stream body? newKey now km2 fuel
            ⟨r.result, r.km, apiKey :: r.callsKeys, apiKey :: r.disabled⟩
          | (none, km2) =>
            ⟨.error (500, "Error processing chat completion: " ++ msg), km2,
             [apiKey], [apiKey]⟩
        else
          ⟨.error (500, "Error processing chat completion: " ++ msg), km, [apiKey], []⟩

/-- An inbound request: `path` is the portion captured after `/api/v1`,
`headers` the ASGI header pairs (servers deliver names lowercased),
`bodyJson` the outcome of `json.loads` on the body bytes (`none` = empty
body or parse failure, both leaving `request_body = None`). -/
structure InboundRequest where
  method : String
  path : String
  headers : List (String × String)
  bodyJson : Option Json

/-- Outcome of proxy_with_httpx: response or HTTPException, resulting
pool, and the number of upstream calls made. -/
structure HttpxOut where
  result : Except (Nat × String) RespOut
  km : KeyManager
  calls : Nat

/-- routes.proxy_with_httpx. Public requests forward filtered inbound
headers untouched and never acquire a key; other requests acquire one
(without checking for pool exhaustion) and substitute the bearer header.
A connect failure on the first call raises a 503 that the function's own
catch-all rewraps into a 500 (except on a models path, where a plain 503
JSON body is returned); a timeout surfaces as 504. Binary and SSE
responses are relayed without rate-limit inspection. Otherwise the raw
recognizer runs; on detection with a truthy current key the key is
disabled with the parsed reset, a replacement is acquired (exhaustion
raises a 429 that the catch-all rewraps into a 500) and the call is
re-issued exactly once with only the bearer header swapped, its outcome
returned without re-inspection (a connect failure there surfaces as 503,
a timeout as 504). -/
def proxy_with_httpx (o : HttpxOracle) (req : InboundRequest)
    (is_public is_binary is_stream : Bool) (km : KeyManager) (now : Int) :
    HttpxOut :=
  let acquired := if is_public then (none, km) else get_next_key km now
  let km1 := acquired.2
  let hdrs :=
    if is_public then buildRawHeaders req.headers true ""
    else buildRawHeaders req.headers false (pyStr acquired.1)
  let ck := currentKey hdrs
  match o.call 0 hdrs with
  | .connectError =>
    if strContains req.path "/models" then
      ⟨.ok (.jsonError 503 "Could not connect to OpenRouter API"), km1, 1⟩
    else
      ⟨.error (500, "Proxy error: 503: Unable to connect to OpenRouter API"), km1, 1⟩
  | .timeout => ⟨.error (504, "OpenRouter API request timed out"), km1, 1⟩
  | .resp r =>
    if is_binary then ⟨.ok (.binaryStream r.status r.headers), km1, 1⟩
    else if is_stream &&
        strContains (strLower ((headerGet r.headers "content-type").getD ""))
          "text/event-stream" then
      ⟨.ok (.sseStream (relaySSE r.lines)), km1, 1⟩
    else
      let det := check_rate_limit_error r
      match ck with
      | some k =>
        if det.1 && (k != "") then
          let km2 := disable_key km1 k det.2 now
          match get_next_key km2 now with
          | (none, km3) =>
            ⟨.error (500, "Proxy error: 429: Rate limited and no available API keys"),
             km3, 1⟩
          | (some nk, km3) =>
            let hdrs2 := setHeader hdrs "Authorization" ("Bearer " ++ nk)
            match o.call 1 hdrs2 with
            | .connectError =>
              ⟨.error (503, "Unable to connect to OpenRouter API"), km3, 2⟩
            | .timeout => ⟨.error (504, "OpenRouter API request timed out"), km3, 2⟩
            | .resp r2 => ⟨.ok (.buffered r2.status r2.headers r2.rawBody), km3, 2⟩
        else ⟨.ok (.buffered r.status r.headers r.rawBody), km1, 1⟩
      | none => ⟨.ok (.buffered r.status r.headers r.rawBody), km1, 1⟩

/-- Configuration: the local access key and the public/binary path lists
(config and constants modules are collaborators outside `src/`). -/
structure ProxyConfig where
  access_key : String
  public_endpoints : List String
  binary_endpoints : List String

/-- Whether the full request path starts with a configured public entry. -/
def isPublicReq (cfg : ProxyConfig) (req : InboundRequest) : Bool :=
  cfg.public_endpoints.any (fun ep => strStarts ("/api/v1" ++ req.path) ep)

/-- Whether the full request path starts with a configured binary entry. -/
def isBinaryReq (cfg : ProxyConfig) (req : InboundRequest) : Bool :=
  cfg.binary_endpoints.any (fun ep => strStarts ("/api/v1" ++ req.path) ep)

/-- The body-parsing block of proxy_endpoint: `request_body` and
`is_stream`. A non-dict parse makes `.get` raise, and on a POST to a
chat path a non-string `model` field makes the variant-logging block
raise; each exception is swallowed, resetting `request_body` to `None`
while `is_stream` keeps whatever value was already assigned. -/
def pyBodyFlags (body? : Option Json) (path method : String) :
    Option Json × Bool :=
  match body? with
  | some (Json.obj fs) =>
    let is_stream := ((fs.lookup "stream").getD (Json.bool false)).truthy
    if strContains path "/chat/completions" && (method == "POST") then
      let model := (fs.lookup "model").getD (Json.str "")
      match pyInOp ":" model with
      | none => (none, is_stream)
      | some true =>
        match model with
        | Json.str _ => (some (Json.obj fs), is_stream)
        | _ => (none, is_stream)
      | some false => (some (Json.obj fs), is_stream)
    else (some (Json.obj fs), is_stream)
  | some _ => (none, false)
  | none => (none, false)

/-- Outcome of the top-level endpoint: whether the local auth check ran,
whether the structured branch was entered, the final result, the resulting
pool, the SDK call trace and the httpx call count. -/
structure EndpointOut where
  authChecked : Bool
  tookStructured : Bool
  result : Except (Nat × String) RespOut
  km : KeyManager
  sdkCalls : List String
  httpxCalls : Nat

/-- routes.proxy_endpoint. Non-public requests are authenticated first; a
401 surfaces directly (it is raised before the `try`). The raw path is
taken when the request is binary, or its path contains "/models", or it
does not contain "/chat/completions"; that call is also outside the
`try`. The structured branch runs inside `try ... except Exception`,
which catches every HTTPException raised within — including the 503 for
pool exhaustion at acquisition and every error out of
handle_chat_completions — and re-raises it as a 500 "Proxy error". Public
structured requests use the empty api key and acquire nothing. -/
def proxy_endpoint (cfg : ProxyConfig) (sdk : SdkOracle) (hx : HttpxOracle)
    (req : InboundRequest) (now : Int) (km : KeyManager) : EndpointOut :=
  let is_public := isPublicReq cfg req
  let is_binary := isBinaryReq cfg req
  let authorization := headerGet req.headers "authorization"
  let authRes :=
    if is_public then none
    else
      match verify_access_key authorization cfg.access_key with
      | .error e => some e
      | .ok _ => none
  match authRes with
  | some e => ⟨!is_public, false, .error e, km, [], 0⟩
  | none =>
    let flags := pyBodyFlags req.bodyJson req.path req.method
    let request_body := flags.1
    let is_stream := flags.2
    if is_binary || strContains req.path "/models" ||
        !(strContains req.path "/chat/completions") then
      let h := proxy_with_httpx hx req is_public is_binary is_stream km now
      ⟨!is_public, false, h.result, h.km, [], h.calls⟩
    else
      let acquired := if is_public then (some "", km) else get_next_key km now
      match acquired with
      | (none, km1) =>
        ⟨!is_public, true, .error (500, "Proxy error: 503: No available API keys"),
         km1, [], 0⟩
      | (some apiKey, km1) =>
        let h := handle_chat_completions sdk is_stream request_body apiKey now km1
          (km1.keys.length + 1)
        let result : Except (Nat × String) RespOut :=
          match h.result with
          | .ok r => .ok r
          | .error (s, d) => .error (500, "Proxy error: " ++ toString s ++ ": " ++ d)
        ⟨!is_public, true, result, h.km, h.callsKeys, 0⟩


/-- Spec-side raw recognizer condition, phrased the way the spec states
it: content type indicates JSON, the body parses, and a top-level error
object carries the known rate-limit status code and the exact known
message. Compared against `check_rate_limit_error` in the C6 theorem. -/
def rawDetectedSpec (r : HttpResponse) : Bool :=
  strContains ((headerGet r.headers "content-type").getD "") "application/json" &&
  (match r.body with
   | some data =>
     (match data.pySub "error" with
      | some e =>
        (match e.pySub "status" with
         | some st => st.isNumVal RATE_LIMIT_ERROR_CODE
         | none => false) &&
        (match e.pySub "message" with
         | some m => m.isStrVal RATE_LIMIT_ERROR_MESSAGE
         | none => false)
      | none => false)
   | none => false)

/-- Spec-side reset extraction: the X-RateLimit-Reset value found under
the error object's metadata headers, when present and parsing as an
integer; `none` otherwise. Compared against the code's extraction in the
C6 theorem. -/
def rawResetSpec (r : HttpResponse) : Option Int :=
  match r.body with
  | some data =>
    data.pySub "error" >>= fun e =>
    e.pySub "metadata" >>= fun m =>
    m.pySub "headers" >>= fun h =>
    h.pySub "X-RateLimit-Reset" >>= Json.pyInt
  | none => none

/-- Fixture: three-key pool behind a local access key, no public or
binary paths. -/
def cfgC1 : ProxyConfig := ⟨"secret", [], []⟩

/-- Fixture: an authenticated POST to the chat-completions path. -/
def reqC1 : InboundRequest :=
  ⟨"POST", "/chat/completions", [("authorization", "Bearer secret")], some (Json.obj [])⟩

/-- Fixture: three available keys. -/
def kmC1 : KeyManager := ⟨[⟨"keyA", none⟩, ⟨"keyB", none⟩, ⟨"keyC", none⟩], 0, 5000⟩

/-- Fixture: an upstream that rate-limits every key. -/
def sdkC1 : SdkOracle := ⟨fun _ => .error "Rate limit exceeded free tier", fun _ => .error "u"⟩

/-- Fixture: an httpx upstream that always times out (unused on the
structured path). -/
def hxC1 : HttpxOracle := ⟨fun _ _ => .timeout⟩

/-- Fixture: the first key rate-limits, every other key fails with a
non-rate-limit message. -/
def sdkC1w : SdkOracle :=
  ⟨fun k => if k == "wA" then .error "rate limit hit" else .error "backend broke",
   fun _ => .error "u"⟩

/-- Fixture: two available keys with the cursor on the second. -/
def kmC1w : KeyManager := ⟨[⟨"wA", none⟩, ⟨"wB", none⟩], 1, 5000⟩

/-- Fixture: `kmC1w` after `wA` was disabled at time 0 and `wB` acquired. -/
def kmC1w1 : KeyManager := ⟨[⟨"wA", some 5000⟩, ⟨"wB", none⟩], 0, 5000⟩

/-- Fixture: a structured error carrying the known rate-limit code and a
parseable reset timestamp, but whose message does not contain the text
"rate limit". -/
def errC3 : APIError :=
  ⟨Json.num 429,
   Json.obj [("metadata", Json.obj [("headers",
      Json.obj [("X-RateLimit-Reset", Json.str "5000")])])],
   "Quota exceeded for key"⟩

/-- Fixture: an upstream raising the exception whose data is `errC3`
(the handler sees its stringified form, the message). -/
def sdkC3 : SdkOracle := ⟨fun _ => .error "Quota exceeded for key", fun _ => .error "u"⟩

/-- Fixture: a one-key pool. -/
def kmC3 : KeyManager := ⟨[⟨"keyA", none⟩], 0, 5000⟩

/-- Fixture: config for the dispatch-decision claims. -/
def cfgC4 : ProxyConfig := ⟨"secret", [], []⟩

/-- Fixture: a GET to the chat-completions path with a parsed JSON body. -/
def reqC4get : InboundRequest :=
  ⟨"GET", "/chat/completions", [("authorization", "Bearer secret")], some (Json.obj [])⟩

/-- Fixture: a POST to the chat-completions path whose body fails to
parse. -/
def reqC4bad : InboundRequest :=
  ⟨"POST", "/chat/completions", [("authorization", "Bearer secret")], none⟩

/-- Fixture: an always-successful structured upstream. -/
def sdkC4 : SdkOracle := ⟨fun _ => .ok "completion", fun _ => .error "u"⟩

/-- Fixture: an httpx upstream that always times out. -/
def hxC4 : HttpxOracle := ⟨fun _ _ => .timeout⟩

/-- Fixture: a one-key pool. -/
def kmC4 : KeyManager := ⟨[⟨"keyA", none⟩], 0, 5000⟩

/-- Fixture: config for the error-taxonomy claim. -/
def cfgC5 : ProxyConfig := ⟨"secret", [], []⟩

/-- Fixture: an authenticated structured chat request. -/
def reqC5chat : InboundRequest :=
  ⟨"POST", "/chat/completions", [("authorization", "Bearer secret")], some (Json.obj [])⟩

/-- Fixture: a pool whose only key is cooling far into the future
(exhausted at acquisition). -/
def kmC5cool : KeyManager := ⟨[⟨"keyA", some 999999⟩], 0, 5000⟩

/-- Fixture: an authenticated raw-path request. -/
def reqC5raw : InboundRequest :=
  ⟨"POST", "/embeddings", [("authorization", "Bearer secret")], none⟩

/-- Fixture: a one-key pool. -/
def kmC5one : KeyManager := ⟨[⟨"keyA", none⟩], 0, 5000⟩

/-- Fixture: a buffered upstream reply matching the raw rate-limit
signature with no reset metadata. -/
def rRLC5 : HttpResponse :=
  ⟨429, [("content-type", "application/json")],
   some (Json.obj [("error", Json.obj [("status", Json.num 429),
      ("message", Json.str RATE_LIMIT_ERROR_MESSAGE)])]),
   "limitbody", []⟩

/-- Fixture: an always-successful structured upstream (unused on the raw
path). -/
def sdkC5 : SdkOracle := ⟨fun _ => .ok "x", fun _ => .error "u"⟩

/-- Fixture: rate-limit reply on the first call, timeout afterwards. -/
def hxC5rl : HttpxOracle := ⟨fun i _ => if i == 0 then .resp rRLC5 else .timeout⟩

/-- Fixture: connect failure on every call. -/
def hxC5conn : HttpxOracle := ⟨fun _ _ => .connectError⟩

/-- Fixture: timeout on every call. -/
def hxC5to : HttpxOracle := ⟨fun _ _ => .timeout⟩

/-- Fixture: config for the authentication claim's witness. -/
def cfgC7 : ProxyConfig := ⟨"secret", [], []⟩

/-- Fixture: a non-public request carrying no authorization header. -/
def reqC7 : InboundRequest := ⟨"GET", "/misc", [], none⟩

/-- Fixture: a one-key pool. -/
def kmC7 : KeyManager := ⟨[⟨"keyA", none⟩], 0, 5000⟩

/-- Fixture: structured upstream for the authentication witness. -/
def sdkC7 : SdkOracle := ⟨fun _ => .ok "x", fun _ => .error "u"⟩

/-- Fixture: httpx upstream for the authentication witness. -/
def hxC7 : HttpxOracle := ⟨fun _ _ => .timeout⟩

/-- Fixture: the models path is public. -/
def cfgC8 : ProxyConfig := ⟨"secret", ["/api/v1/models"], []⟩

/-- Fixture: a public request carrying a (lowercased, as ASGI delivers
it) inbound authorization header. -/
def reqC8 : InboundRequest := ⟨"GET", "/models", [("authorization", "Bearer client")], none⟩

/-- Fixture: a two-key pool. -/
def kmC8 : KeyManager := ⟨[⟨"keyA", none⟩, ⟨"keyB", none⟩], 0, 5000⟩

/-- Fixture: a raw upstream replying with the rate-limit signature on
every call. -/
def hxC8 : HttpxOracle := ⟨fun _ _ => .resp rRLC5⟩

/-- Fixture: structured upstream for the public-path witness. -/
def sdkC8 : SdkOracle := ⟨fun _ => .ok "x", fun _ => .error "u"⟩

/-! Helper lemmas shared by the claim theorems. -/

theorem anyKey_eq_isSome_lookup (fs : List (String × Json)) (k : String) :
    fs.any (fun p => p.1 == k) = (List.lookup k fs).isSome := by
  induction fs with
  | nil => simp
  | cons p t ih =>
    by_cases h : p.1 = k
    · simp [List.lookup, h]
    · have h' : (k == p.1) = false := by simp [Ne.symm h]
      simp [List.lookup, h, h', ih]

theorem handle_empty_key_km (o : SdkOracle) (st : Bool) (b? : Option Json)
    (now : Int) (km : KeyManager) (fuel : Nat) :
    (handle_chat_completions o st b? "" now km fuel).km = km := by
  cases fuel with
  | zero => rfl
  | succ n =>
    unfold handle_chat_completions
    cases b? with
    | none => rfl
    | some b =>
      cases st with
      | true =>
        cases hs : o.stream "" with
        | ok v =>
          cases v with
          | mk chunks fm =>
            cases fm <;> simp [hs, stream_disable]
        | error m => simp [hs]
      | false =>
        cases hs : o.once "" with
        | ok v => simp [hs]
        | error m => simp [hs]

theorem currentKey_public_none (hs : List (String × String))
    (h : ∀ p ∈ hs, p.1 = strLower p.1) :
    currentKey (buildRawHeaders hs true "") = none := by
  unfold currentKey headerGetExact
  rw [List.find?_eq_none.mpr]
  · rfl
  · intro p hp
    have h2 := hp
    simp [buildRawHeaders, List.mem_filter] at h2
    have hlow := h p h2.1
    simp only [beq_iff_eq]
    intro hA
    rw [hA] at hlow
    exact absurd hlow (by decide)

theorem proxy_with_httpx_public_km (o : HttpxOracle) (req : InboundRequest)
    (bin strm : Bool) (km : KeyManager) (now : Int)
    (h : ∀ p ∈ req.headers, p.1 = strLower p.1) :
    (proxy_with_httpx o req true bin strm km now).km = km := by
  have hck := currentKey_public_none req.headers h
  unfold proxy_with_httpx
  cases hc : o.call 0 (buildRawHeaders req.headers true "") <;>
    simp [hc, hck] <;> split <;> simp_all <;> split <;> simp_all

theorem verify_error_is_401 (authorization : Option String) (key : String)
    (h : verify_access_key authorization key ≠ .ok true) :
    ∃ d, verify_access_key authorization key = .error (401, d) := by
  unfold verify_access_key at *
  cases authorization with
  | none => exact ⟨"Authorization header missing", rfl⟩
  | some a =>
    by_cases he : a.data.isEmpty
    · exact ⟨"Authorization header missing", by simp [he]⟩
    · simp only [he, if_false, Bool.false_eq_true] at *
      by_cases hsch : strLower (pyPartition a).1 != "bearer"
      · exact ⟨"Invalid authentication scheme", by simp [hsch]⟩
      · by_cases htok : ((pyPartition a).2.getD "") != key
        · exact ⟨"Invalid access key", by simp [hsch, htok]⟩
        · exact absurd (by simp [hsch, htok]) h

theorem splitAtSpace_append (l₁ l₂ : List Char) (h : ∀ c ∈ l₁, c ≠ ' ') :
    splitAtSpace (l₁ ++ ' ' :: l₂) = (l₁, some l₂) := by
  induction l₁ with
  | nil => simp [splitAtSpace]
  | cons c t ih =>
    have hc : (c == ' ') = false := by simp [h c (by simp)]
    simp [splitAtSpace, hc, ih (fun x hx => h x (by simp [hx]))]

theorem pyPartition_bearer (k : String) :
    pyPartition ("Bearer " ++ k) = ("Bearer", some k) := by
  unfold pyPartition
  have hd : ("Bearer " ++ k).data = "Bearer".data ++ ' ' :: k.data := rfl
  rw [hd, splitAtSpace_append _ _ (by decide)]
  rfl

theorem rawResetExtract_eq (fs efs : List (String × Json))
    (he : List.lookup "error" fs = some (Json.obj efs)) :
    rawResetExtract (Json.obj fs) (Json.obj efs) =
      ((Json.obj efs).pySub "metadata" >>= fun m =>
        m.pySub "headers" >>= fun h =>
        h.pySub "X-RateLimit-Reset" >>= Json.pyInt) := by
  unfold rawResetExtract
  cases hm : List.lookup "metadata" efs with
  | none => simp [Json.pyGet, Json.pySub, hm, pyInOp]
  | some mv =>
    cases mv with
    | obj mfs =>
      cases hh : List.lookup "headers" mfs with
      | none => simp [Json.pyGet, Json.pySub, hm, hh, pyInOp]
      | some hv =>
        cases hv with
        | obj hfs =>
          cases hk : List.lookup "X-RateLimit-Reset" hfs with
          | none =>
            have ha : hfs.any (fun p => p.1 == "X-RateLimit-Reset") = false := by
              rw [anyKey_eq_isSome_lookup, hk]; rfl
            simp [Json.pyGet, Json.pySub, hm, hh, hk, pyInOp, ha]
          | some v =>
            have ha : hfs.any (fun p => p.1 == "X-RateLimit-Reset") = true := by
              rw [anyKey_eq_isSome_lookup, hk]; rfl
            simp [Json.pyGet, Json.pySub, hm, hh, hk, pyInOp, ha, he]
        | str t =>
          cases hb : strContains t "X-RateLimit-Reset" <;>
            simp [Json.pyGet, Json.pySub, hm, hh, pyInOp, hb, he]
        | arr xs =>
          cases hb : xs.any (fun j => j.isStrVal "X-RateLimit-Reset") <;>
            simp [Json.pyGet, Json.pySub, hm, hh, pyInOp, hb, he]
        | null => simp [Json.pyGet, Json.pySub, hm, hh, pyInOp]
        | bool b => simp [Json.pyGet, Json.pySub, hm, hh, pyInOp]
        | num n => simp [Json.pyGet, Json.pySub, hm, hh, pyInOp]
    | null => simp [Json.pyGet, Json.pySub, hm]
    | bool b => simp [Json.pyGet, Json.pySub, hm]
    | num n => simp [Json.pyGet, Json.pySub, hm]
    | str t => simp [Json.pyGet, Json.pySub, hm]
    | arr xs => simp [Json.pyGet, Json.pySub, hm]

/-! Claim theorems. -/


/-- C10: both rate-limit recognizers return a reset time only together
with a positive detection: whenever either reports `detected = false`,
the reset component is `none`. -/
theorem C10_reset_only_with_detection (err : APIError) (r : HttpResponse) :
    ((check_rate_limit_openai err).1 = false → (check_rate_limit_openai err).2 = none)
    ∧ ((check_rate_limit_error r).1 = false → (check_rate_limit_error r).2 = none) := by
  constructor
  · unfold check_rate_limit_openai
    dsimp only
    split
    · rename_i heq
      split at heq <;> simp_all
      split at heq <;> simp_all
    · split <;> simp
  · unfold check_rate_limit_error
    dsimp only
    split
    · split
      · simp
      · split
        · simp
        · split
          · split <;> simp
          · simp
    · simp

/-- C10 witness: the implications instantiated at a concrete
non-rate-limit error and response. -/
theorem C10_reset_only_with_detection_witness :
    (check_rate_limit_openai ⟨Json.num 400, Json.null, "bad request"⟩).2 = none
    ∧ (check_rate_limit_error ⟨200, [], none, "ok", []⟩).2 = none :=
  ⟨(C10_reset_only_with_detection ⟨Json.num 400, Json.null, "bad request"⟩
      ⟨200, [], none, "ok", []⟩).1 rfl,
   (C10_reset_only_with_detection ⟨Json.num 400, Json.null, "bad request"⟩
      ⟨200, [], none, "ok", []⟩).2 rfl⟩

/-- C2 counterexample: a streaming structured call that yields three
chunks and then fails mid-stream delivers exactly the three `data:`
frames and NO terminal `data: [DONE]` frame — the terminal frame is
yielded after the loop, inside the `try`, so the `except` clause skips
it; the claim's "terminated unconditionally" is false on this input. -/
theorem C2_counterexample :
    stream_response [⟨["x"], "c1"⟩, ⟨["y"], "c2"⟩, ⟨["z"], "c3"⟩]
        (some "server disconnected")
      = ["data: c1\n\n", "data: c2\n\n", "data: c3\n\n"]
    ∧ "data: [DONE]\n\n" ∉
        stream_response [⟨["x"], "c1"⟩, ⟨["y"], "c2"⟩, ⟨["z"], "c3"⟩]
          (some "server disconnected") :=
  ⟨rfl, by decide⟩

/-- C2 amended: the delivered frames are one `data: <json>` frame per
upstream chunk with a non-empty choices list, followed by the terminal
`data: [DONE]` frame exactly when the upstream iteration completes
without failing; on a mid-stream failure the sequence ends after the data
frames with no terminal frame. No exception escapes and no retry is
attempted: once the stream opened, the handler returns the stream as a
success built from a single upstream call. -/
theorem C2_amended :
    (∀ (chunks : List Chunk) (failMsg : Option String),
      stream_response chunks failMsg =
        ((chunks.filter (fun c => !c.choices.isEmpty)).map
          (fun c => "data: " ++ c.dump ++ "\n\n")) ++
        (if failMsg.isNone then ["data: [DONE]\n\n"] else []))
    ∧ (∀ (o : SdkOracle) (body : Json) (k : String) (now : Int) (km : KeyManager)
        (fuel : Nat) (chunks : List Chunk) (m : Option String),
        o.stream k = .ok (chunks, m) →
        (handle_chat_completions o true (some body) k now km (fuel + 1)).result
            = .ok (.sseStream (stream_response chunks m))
        ∧ (handle_chat_completions o true (some body) k now km (fuel + 1)).callsKeys
            = [k]) := by
  constructor
  · intro chunks failMsg
    induction chunks with
    | nil => cases failMsg <;> simp [stream_response]
    | cons c rest ih =>
      by_cases hc : c.choices.isEmpty <;>
        cases failMsg <;> simp_all [stream_response]
  · intro o body k now km fuel chunks m hs
    constructor <;> simp [handle_chat_completions, hs]

/-- C2 witness: the handler's streaming success instantiated at a
concrete one-chunk stream that fails mid-way. -/
theorem C2_amended_witness :
    (handle_chat_completions
        ⟨fun _ => .error "u", fun _ => .ok ([⟨["x"], "c1"⟩], some "boom")⟩
        true (some (Json.obj [])) "keyA" 0 ⟨[⟨"keyA", none⟩], 0, 5000⟩ 1).result
      = .ok (.sseStream ["data: c1\n\n"]) :=
  (C2_amended.2 ⟨fun _ => .error "u", fun _ => .ok ([⟨["x"], "c1"⟩], some "boom")⟩
    (Json.obj []) "keyA" 0 ⟨[⟨"keyA", none⟩], 0, 5000⟩ 0 [⟨["x"], "c1"⟩]
    (some "boom") rfl).1

/-- C9: the raw path forwards exactly the inbound headers whose
lowercased name is not host/content-length/connection (and, when not
public, not authorization), plus — when not public — the fresh bearer
header carrying the rotated pool key; public requests get no
substitution. -/
theorem C9_raw_header_filtering (inbound : List (String × String))
    (is_public : Bool) (key : String) (n v : String) :
    ((n, v) ∈ buildRawHeaders inbound is_public key) ↔
      (((n, v) ∈ inbound
        ∧ ¬(strLower n = "host" ∨ strLower n = "content-length"
            ∨ strLower n = "connection")
        ∧ (is_public = true ∨ strLower n ≠ "authorization"))
       ∨ (is_public = false ∧ n = "Authorization" ∧ v = "Bearer " ++ key)) := by
  cases is_public <;>
    simp [buildRawHeaders, List.mem_filter, not_or, Prod.ext_iff] <;>
    tauto

/-- C6: the raw recognizer detects a rate limit exactly when the
response's content type indicates JSON, the body parses, and the
top-level error object's status equals the known rate-limit code while
its message equals the exact known string; when detected, the returned
reset time is the X-RateLimit-Reset value from the error's metadata
headers when present and integer-parsing, and `none` otherwise. -/
theorem C6_raw_recognizer (r : HttpResponse) :
    check_rate_limit_error r =
      (rawDetectedSpec r, if rawDetectedSpec r = true then rawResetSpec r else none) := by
  unfold check_rate_limit_error rawDetectedSpec rawResetSpec
  by_cases hct : strContains ((headerGet r.headers "content-type").getD "") "application/json"
  case neg => simp [hct]
  case pos =>
    simp only [hct, if_true, Bool.true_and]
    cases hb : r.body with
    | none => simp
    | some data =>
      cases data with
      | obj fs =>
        cases he : List.lookup "error" fs with
        | none => simp [Json.pyGet, Json.pySub, he, Json.isNumVal]
        | some e =>
          cases e with
          | obj efs =>
            cases hst : List.lookup "status" efs with
            | none => simp [Json.pyGet, Json.pySub, he, hst, Json.isNumVal]
            | some st =>
              cases hmsg : List.lookup "message" efs with
              | none =>
                simp [Json.pyGet, Json.pySub, he, hst, hmsg, Json.isStrVal]
                exact fun _ => by decide
              | some msg =>
                cases hA : st.isNumVal RATE_LIMIT_ERROR_CODE <;>
                  cases hB : msg.isStrVal RATE_LIMIT_ERROR_MESSAGE <;>
                  simp [Json.pyGet, Json.pySub, he, hst, hmsg, hA, hB,
                    rawResetExtract_eq fs efs he]
          | null => simp [Json.pyGet, Json.pySub, he]
          | bool b => simp [Json.pyGet, Json.pySub, he]
          | num n => simp [Json.pyGet, Json.pySub, he]
          | str t => simp [Json.pyGet, Json.pySub, he]
          | arr xs => simp [Json.pyGet, Json.pySub, he]
      | null => simp [Json.pyGet, Json.pySub]
      | bool b => simp [Json.pyGet, Json.pySub]
      | num n => simp [Json.pyGet, Json.pySub]
      | str t => simp [Json.pyGet, Json.pySub]
      | arr xs => simp [Json.pyGet, Json.pySub]

/-- C7: every non-public request is authenticated before any upstream
call — a failing check surfaces a 401 with nothing else executed (no SDK
call, no httpx call, pool untouched); a missing header, a scheme other
than case-insensitive "bearer", and a token different from the
configured key each yield 401, and a well-formed matching Bearer header
passes. -/
theorem C7_local_auth :
    (∀ (cfg : ProxyConfig) (sdk : SdkOracle) (hx : HttpxOracle)
       (req : InboundRequest) (now : Int) (km : KeyManager),
       isPublicReq cfg req = false →
       verify_access_key (headerGet req.headers "authorization") cfg.access_key ≠ .ok true →
       ∃ d, proxy_endpoint cfg sdk hx req now km =
         ⟨true, false, .error (401, d), km, [], 0⟩)
    ∧ (∀ key : String, verify_access_key none key = .error (401, "Authorization header missing"))
    ∧ (∀ (a key : String), a.data.isEmpty = false →
        strLower (pyPartition a).1 ≠ "bearer" →
        verify_access_key (some a) key = .error (401, "Invalid authentication scheme"))
    ∧ (∀ (a key : String), a.data.isEmpty = false →
        strLower (pyPartition a).1 = "bearer" →
        (pyPartition a).2.getD "" ≠ key →
        verify_access_key (some a) key = .error (401, "Invalid access key"))
    ∧ (∀ k : String, verify_access_key (some ("Bearer " ++ k)) k = .ok true) := by
  refine ⟨?_, ?_, ?_, ?_, ?_⟩
  · intro cfg sdk hx req now km hpub hv
    obtain ⟨d, hd⟩ := verify_error_is_401 _ _ hv
    exact ⟨d, by simp [proxy_endpoint, hpub, hd]⟩
  · intro key
    rfl
  · intro a key he hs
    simp [verify_access_key, he, hs]
  · intro a key he hs htok
    simp [verify_access_key, he, hs, htok]
  · intro k
    unfold verify_access_key
    have hd : ("Bearer " ++ k).data = "Bearer".data ++ ' ' :: k.data := rfl
    have he : ("Bearer " ++ k).data.isEmpty = false := by rw [hd]; rfl
    have h1 : (strLower "Bearer" != "bearer") = false := by decide
    simp [he, pyPartition_bearer, h1]

/-- C7 witness: a non-public request with no authorization header is
rejected with 401 before anything else happens. -/
theorem C7_local_auth_witness :
    ∃ d, proxy_endpoint cfgC7 sdkC7 hxC7 reqC7 0 kmC7 =
      ⟨true, false, .error (401, d), kmC7, [], 0⟩ :=
  C7_local_auth.1 cfgC7 sdkC7 hxC7 reqC7 0 kmC7 rfl (fun h => Except.noConfusion h)

/-- C8: on a public request (with header names lowercased, as the ASGI
server delivers them) the local authentication check never runs and the
key pool is left unchanged, on both dispatch paths — in particular the
raw path's retry logic never fires because the exact-case
"Authorization" dict key cannot occur among forwarded inbound headers. -/
theorem C8_public_frame (cfg : ProxyConfig) (sdk : SdkOracle) (hx : HttpxOracle)
    (req : InboundRequest) (now : Int) (km : KeyManager)
    (hpub : isPublicReq cfg req = true)
    (hlower : ∀ p ∈ req.headers, p.1 = strLower p.1) :
    (proxy_endpoint cfg sdk hx req now km).authChecked = false
    ∧ (proxy_endpoint cfg sdk hx req now km).km = km := by
  constructor
  · simp only [proxy_endpoint, hpub]
    split
    · simp_all
    · split <;> rfl
  · simp only [proxy_endpoint, hpub]
    split
    · simp_all
    · split
      · exact proxy_with_httpx_public_km hx req _ _ km now hlower
      · exact handle_empty_key_km sdk _ _ now km _

/-- C8 witness: a public models request carrying a client bearer header,
against an upstream replying with the rate-limit signature, triggers no
auth check and leaves the pool unchanged. -/
theorem C8_public_frame_witness :
    (proxy_endpoint cfgC8 sdkC8 hxC8 reqC8 0 kmC8).authChecked = false
    ∧ (proxy_endpoint cfgC8 sdkC8 hxC8 reqC8 0 kmC8).km = kmC8 :=
  C8_public_frame cfgC8 sdkC8 hxC8 reqC8 0 kmC8 rfl
    (by intro p hp; simp [reqC8] at hp; rw [hp]; decide)

/-- C1 counterexample: with three available keys and an upstream that
rate-limits every key, the structured path executes the call three times
(two additional re-executions, each after another disable/acquire
cycle), contradicting "re-executed at most one additional time". -/
theorem C1_counterexample :
    (proxy_endpoint cfgC1 sdkC1 hxC1 reqC1 0 kmC1).sdkCalls = ["keyA", "keyB", "keyC"]
    ∧ (proxy_endpoint cfgC1 sdkC1 hxC1 reqC1 0 kmC1).sdkCalls.length = 3
    ∧ (proxy_endpoint cfgC1 sdkC1 hxC1 reqC1 0 kmC1).result
        = .error (500,
            "Proxy error: 500: Error processing chat completion: Rate limit exceeded free tier") :=
  ⟨rfl, rfl, rfl⟩

/-- C1 amended: on the raw path the upstream call is issued at most
twice (one retry, with only the bearer header swapped, whose result is
final); on the structured path a retry failure that is NOT detected as a
rate limit is surfaced as final after exactly two calls, but a
rate-limit-detected retry failure triggers a further
disable/acquire/re-execute cycle (recursively, until a non-rate-limit
outcome or pool exhaustion). -/
theorem C1_amended :
    (∀ (o : HttpxOracle) (req : InboundRequest) (pub bin strm : Bool)
       (km : KeyManager) (now : Int),
       (proxy_with_httpx o req pub bin strm km now).calls ≤ 2)
    ∧ (∀ (o : SdkOracle) (body : Json) (k0 : String) (now : Int) (km : KeyManager)
        (msg0 k1 : String) (km1 : KeyManager) (msg1 : String) (fuel : Nat),
        o.once k0 = .error msg0 →
        strContains (strLower msg0) "rate limit" = true →
        k0 ≠ "" →
        get_next_key (disable_key km k0 none now) now = (some k1, km1) →
        o.once k1 = .error msg1 →
        strContains (strLower msg1) "rate limit" = false →
        (handle_chat_completions o false (some body) k0 now km (fuel + 2)).result
            = .error (500, "Error processing chat completion: " ++ msg1)
        ∧ (handle_chat_completions o false (some body) k0 now km (fuel + 2)).callsKeys
            = [k0, k1]
        ∧ (handle_chat_completions o false (some body) k0 now km (fuel + 2)).km = km1) := by
  constructor
  · intro o req pub bin strm km now
    simp only [proxy_with_httpx]
    repeat' split
    all_goals simp
  · intro o body k0 now km msg0 k1 km1 msg1 fuel h0 hrl0 hk0 hacq h1 hrl1
    have hk0b : (k0 != "") = true := bne_iff_ne.mpr hk0
    refine ⟨?_, ?_, ?_⟩ <;>
      simp [handle_chat_completions, h0, hrl0, hk0b, hacq, h1, hrl1]

/-- C1 witness: a rate-limited first key followed by a non-rate-limit
retry failure surfaces that failure as final, and a concrete raw-path
run makes at most two calls. -/
theorem C1_amended_witness :
    (handle_chat_completions sdkC1w false (some (Json.obj [])) "wA" 0 kmC1w 2).result
      = .error (500, "Error processing chat completion: backend broke")
    ∧ (proxy_with_httpx hxC1 reqC1 false false false kmC1w 0).calls ≤ 2 :=
  ⟨(C1_amended.2 sdkC1w (Json.obj []) "wA" 0 kmC1w "rate limit hit" "wB" kmC1w1
      "backend broke" 0 rfl rfl (by decide) rfl rfl rfl).1,
   C1_amended.1 hxC1 reqC1 false false false kmC1w 0⟩

/-- C3 counterexample: a structured failure that the structured
recognizer classifies as rate-limited with a parsed reset of 5000
(status code matches, metadata reset parses) is nevertheless surfaced by
the handler as a generic 500 with no key disabled and the pool
untouched, because the handler decides by the substring "rate limit" in
the stringified exception — not by the recognizer, which routes.py never
calls. -/
theorem C3_counterexample :
    check_rate_limit_openai errC3 = (true, some 5000)
    ∧ (handle_chat_completions sdkC3 false (some (Json.obj [])) "keyA" 0 kmC3 2).result
        = .error (500, "Error processing chat completion: Quota exceeded for key")
    ∧ (handle_chat_completions sdkC3 false (some (Json.obj [])) "keyA" 0 kmC3 2).disabled = []
    ∧ (handle_chat_completions sdkC3 false (some (Json.obj [])) "keyA" 0 kmC3 2).km = kmC3 :=
  ⟨rfl, rfl, rfl, rfl⟩

/-- C3 amended: the structured path decides rate limiting by a
case-insensitive substring test for "rate limit" on the stringified
exception; on a negative test it surfaces a generic 500 with the pool
untouched, and on a positive test with a truthy key it disables the used
key with NO reset time (default cooldown) and re-executes the same path
with the acquired replacement. -/
theorem C3_amended :
    (∀ (o : SdkOracle) (body : Json) (k : String) (now : Int) (km : KeyManager)
       (fuel : Nat) (msg : String),
       o.once k = .error msg →
       strContains (strLower msg) "rate limit" = false →
       (handle_chat_completions o false (some body) k now km (fuel + 1)).result
           = .error (500, "Error processing chat completion: " ++ msg)
       ∧ (handle_chat_completions o false (some body) k now km (fuel + 1)).km = km
       ∧ (handle_chat_completions o false (some body) k now km (fuel + 1)).disabled = [])
    ∧ (∀ (o : SdkOracle) (body : Json) (k : String) (now : Int) (km : KeyManager)
       (fuel : Nat) (msg : String) (k1 : String) (km1 : KeyManager),
       o.once k = .error msg →
       strContains (strLower msg) "rate limit" = true →
       k ≠ "" →
       get_next_key (disable_key km k none now) now = (some k1, km1) →
       handle_chat_completions o false (some body) k now km (fuel + 2) =
         ⟨(handle_chat_completions o false (some body) k1 now km1 (fuel + 1)).result,
          (handle_chat_completions o false (some body) k1 now km1 (fuel + 1)).km,
          k :: (handle_chat_completions o false (some body) k1 now km1 (fuel + 1)).callsKeys,
          k :: (handle_chat_completions o false (some body) k1 now km1 (fuel + 1)).disabled⟩) := by
  constructor
  · intro o body k now km fuel msg h0 hrl
    refine ⟨?_, ?_, ?_⟩ <;> simp [handle_chat_completions, h0, hrl]
  · intro o body k now km fuel msg k1 km1 h0 hrl hk hacq
    have hkb : (k != "") = true := bne_iff_ne.mpr hk
    conv_lhs => rw [handle_chat_completions]
    simp [h0, hrl, hkb, hacq]

/-- C3 witness: the negative-substring branch instantiated at the
concrete quota failure. -/
theorem C3_amended_witness :
    (handle_chat_completions sdkC3 false (some (Json.obj [])) "keyA" 0 kmC3 1).result
      = .error (500, "Error processing chat completion: Quota exceeded for key") :=
  (C3_amended.1 sdkC3 (Json.obj []) "keyA" 0 kmC3 0 "Quota exceeded for key" rfl rfl).1

/-- C4 counterexample: a GET to the chat-completions path is dispatched
on the structured path (and consumes a pool key), and a POST to that
path whose body fails to parse is also dispatched structurally, failing
with a 500 rather than degrading to the raw path — contradicting both
the POST-only and the parse-failure clauses. -/
theorem C4_counterexample :
    ((proxy_endpoint cfgC4 sdkC4 hxC4 reqC4get 0 kmC4).tookStructured = true
      ∧ (proxy_endpoint cfgC4 sdkC4 hxC4 reqC4get 0 kmC4).sdkCalls = ["keyA"])
    ∧ ((proxy_endpoint cfgC4 sdkC4 hxC4 reqC4bad 0 kmC4).tookStructured = true
      ∧ (proxy_endpoint cfgC4 sdkC4 hxC4 reqC4bad 0 kmC4).result
          = .error (500,
            "Proxy error: 500: Error processing chat completion: NoneType object has no attribute copy")) :=
  ⟨⟨rfl, rfl⟩, ⟨rfl, rfl⟩⟩

/-- C4 amended: past authentication, the structured path is taken
exactly when the request is not binary, its path does not contain
"/models", and it does contain "/chat/completions" — independent of the
method and of whether the body parsed. -/
theorem C4_amended (cfg : ProxyConfig) (sdk : SdkOracle) (hx : HttpxOracle)
    (req : InboundRequest) (now : Int) (km : KeyManager)
    (hauth : isPublicReq cfg req = true
      ∨ verify_access_key (headerGet req.headers "authorization") cfg.access_key = .ok true) :
    ((proxy_endpoint cfg sdk hx req now km).tookStructured = true
      ↔ (isBinaryReq cfg req = false ∧ strContains req.path "/models" = false
         ∧ strContains req.path "/chat/completions" = true)) := by
  have hnone : (if isPublicReq cfg req then none
      else match verify_access_key (headerGet req.headers "authorization") cfg.access_key with
        | .error e => some e
        | .ok _ => none) = none := by
    rcases hauth with h | h
    · simp [h]
    · cases hip : isPublicReq cfg req <;> simp [h, hip]
  simp only [proxy_endpoint]
  rw [hnone]
  cases hbin : isBinaryReq cfg req <;>
    cases hm : strContains req.path "/models" <;>
    cases hcc : strContains req.path "/chat/completions" <;>
    simp_all <;>
    rcases hacq : (if isPublicReq cfg req = true then (some "", km)
        else get_next_key km now) with ⟨_ | _, km1⟩ <;> simp_all

/-- C4 witness: the amended equivalence applied at the authenticated GET
chat request. -/
theorem C4_amended_witness :
    (proxy_endpoint cfgC4 sdkC4 hxC4 reqC4get 0 kmC4).tookStructured = true :=
  (C4_amended cfgC4 sdkC4 hxC4 reqC4get 0 kmC4 (Or.inr rfl)).mpr ⟨rfl, rfl, rfl⟩

/-- C5: the catch-all `except Exception` blocks swallow the
HTTPExceptions the code itself raises — pool exhaustion at structured
acquisition surfaces as 500 (not 503), a raw rate-limit detection with
an exhausted pool surfaces as 500 (not 429), and a first-call connect
failure surfaces as 500 (not 503); only the timeout's 504 survives,
being raised inside an `except` clause of the same `try`. -/
theorem C5_code_bug_eval :
    (proxy_endpoint cfgC5 sdkC5 hxC5to reqC5chat 0 kmC5cool).result
        = .error (500, "Proxy error: 503: No available API keys")
    ∧ (proxy_endpoint cfgC5 sdkC5 hxC5rl reqC5raw 0 kmC5one).result
        = .error (500, "Proxy error: 429: Rate limited and no available API keys")
    ∧ (proxy_endpoint cfgC5 sdkC5 hxC5conn reqC5raw 0 kmC5one).result
        = .error (500, "Proxy error: 503: Unable to connect to OpenRouter API")
    ∧ (proxy_endpoint cfgC5 sdkC5 hxC5to reqC5raw 0 kmC5one).result
        = .error (504, "OpenRouter API request timed out") :=
  ⟨rfl, rfl, rfl, rfl⟩

end ORProxy
